import Mathlib

/-!
# BackTest: request validation and persistence contract

A shallow embedding of `src/index.js` (four Express handlers and the helper
`cleanObject`) together with the table definitions of `src/db.js`.

* JavaScript values are the inductive type `JsVal`; an object is the list of
  its own enumerable string-keyed properties in the order `Object.entries`
  reports them.  A handler receives `req.body` as a value: the object or
  array `express.json()` parsed, or `undefined` when the request carried no
  JSON body.
* The connection pool is an injected collaborator `Pool σ`: a query takes the
  SQL text and the bound values and returns either the rows or the message of
  the error it threw, together with the next store state.
* The libraries the handlers call (`Joi`, `bcrypt`) are collaborators as
  well: the e-mail format check and the hash/compare functions are fields of
  `Env`; the rest of the Joi schema (required, string, empty, min) is
  interpreted by `validate`.
* `mysql` is a reference store interpreting the statements the handlers emit
  against the two tables declared in `src/db.js`.
-/

set_option autoImplicit false
set_option maxRecDepth 100000

namespace BackTest

/-! ## JavaScript values -/

/-- A JavaScript value as it can occur in a parsed JSON body, in a row
returned by the driver, or as the result of reading an absent property. -/
inductive JsVal where
  | undefined
  | null
  | bool (b : Bool)
  | num (n : Int)
  | str (s : String)
  | date (ms : Int)
  | arr (items : List JsVal)
  | obj (props : List (String × JsVal))

/-- An object: own enumerable properties, in property order. -/
abbrev Obj := List (String × JsVal)

mutual
/-- Decidable equality of values (structural). -/
def JsVal.decEq : (a b : JsVal) → Decidable (a = b)
  | .undefined, .undefined => isTrue rfl
  | .null, .null => isTrue rfl
  | .bool a, .bool b =>
    if h : a = b then isTrue (by rw [h]) else isFalse (by intro e; cases e; exact h rfl)
  | .num a, .num b =>
    if h : a = b then isTrue (by rw [h]) else isFalse (by intro e; cases e; exact h rfl)
  | .str a, .str b =>
    if h : a = b then isTrue (by rw [h]) else isFalse (by intro e; cases e; exact h rfl)
  | .date a, .date b =>
    if h : a = b then isTrue (by rw [h]) else isFalse (by intro e; cases e; exact h rfl)
  | .arr a, .arr b =>
    match JsVal.decEqList a b with
    | isTrue h => isTrue (by rw [h])
    | isFalse h => isFalse (by intro e; cases e; exact h rfl)
  | .obj a, .obj b =>
    match JsVal.decEqProps a b with
    | isTrue h => isTrue (by rw [h])
    | isFalse h => isFalse (by intro e; cases e; exact h rfl)
  | .undefined, .null | .undefined, .bool _ | .undefined, .num _ | .undefined, .str _
  | .undefined, .date _ | .undefined, .arr _ | .undefined, .obj _ =>
    isFalse (by intro e; cases e)
  | .null, .undefined | .null, .bool _ | .null, .num _ | .null, .str _
  | .null, .date _ | .null, .arr _ | .null, .obj _ => isFalse (by intro e; cases e)
  | .bool _, .undefined | .bool _, .null | .bool _, .num _ | .bool _, .str _
  | .bool _, .date _ | .bool _, .arr _ | .bool _, .obj _ => isFalse (by intro e; cases e)
  | .num _, .undefined | .num _, .null | .num _, .bool _ | .num _, .str _
  | .num _, .date _ | .num _, .arr _ | .num _, .obj _ => isFalse (by intro e; cases e)
  | .str _, .undefined | .str _, .null | .str _, .bool _ | .str _, .num _
  | .str _, .date _ | .str _, .arr _ | .str _, .obj _ => isFalse (by intro e; cases e)
  | .date _, .undefined | .date _, .null | .date _, .bool _ | .date _, .num _
  | .date _, .str _ | .date _, .arr _ | .date _, .obj _ => isFalse (by intro e; cases e)
  | .arr _, .undefined | .arr _, .null | .arr _, .bool _ | .arr _, .num _
  | .arr _, .str _ | .arr _, .date _ | .arr _, .obj _ => isFalse (by intro e; cases e)
  | .obj _, .undefined | .obj _, .null | .obj _, .bool _ | .obj _, .num _
  | .obj _, .str _ | .obj _, .date _ | .obj _, .arr _ => isFalse (by intro e; cases e)
/-- Decidable equality of arrays of values. -/
def JsVal.decEqList : (a b : List JsVal) → Decidable (a = b)
  | [], [] => isTrue rfl
  | [], _ :: _ => isFalse (by intro e; cases e)
  | _ :: _, [] => isFalse (by intro e; cases e)
  | x :: xs, y :: ys =>
    match JsVal.decEq x y, JsVal.decEqList xs ys with
    | isTrue h1, isTrue h2 => isTrue (by rw [h1, h2])
    | isFalse h, _ => isFalse (by intro e; cases e; exact h rfl)
    | _, isFalse h => isFalse (by intro e; cases e; exact h rfl)
/-- Decidable equality of property lists. -/
def JsVal.decEqProps : (a b : List (String × JsVal)) → Decidable (a = b)
  | [], [] => isTrue rfl
  | [], _ :: _ => isFalse (by intro e; cases e)
  | _ :: _, [] => isFalse (by intro e; cases e)
  | (k, x) :: xs, (l, y) :: ys =>
    if hk : k = l then
      match JsVal.decEq x y, JsVal.decEqProps xs ys with
      | isTrue h1, isTrue h2 => isTrue (by rw [hk, h1, h2])
      | isFalse h, _ => isFalse (by intro e; cases e; exact h rfl)
      | _, isFalse h => isFalse (by intro e; cases e; exact h rfl)
    else isFalse (by intro e; cases e; exact hk rfl)
end

instance : DecidableEq JsVal := JsVal.decEq

/-- The operator `!==` with a primitive literal on the right, as used in
`cleanObject`: operands of different types are unequal, primitives of one
type are compared by value.  Objects, arrays and dates are compared by
identity in JavaScript, so such an operand is never equal to a literal. -/
def strictNe : JsVal → JsVal → Bool
  | .undefined, .undefined => false
  | .null, .null => false
  | .bool a, .bool b => a != b
  | .num a, .num b => a != b
  | .str a, .str b => a != b
  | _, _ => true

/-! ## Objects and property order -/

/-- Numeric value of a string of decimal digits. -/
def digitsValue (cs : List Char) : Nat :=
  cs.foldl (fun a c => 10 * a + (c.toNat - 48)) 0

/-- The array index a property key denotes, if any: a canonical decimal
numeral (no leading zero) below `2^32 - 1`.  Such keys are enumerated first,
in ascending numeric order; all other keys follow in creation order. -/
def arrayIndex? (k : String) : Option Nat :=
  let cs := k.toList
  if cs.all Char.isDigit && !cs.isEmpty && (cs.head? != some '0' || cs.length == 1) then
    if digitsValue cs < 4294967295 then some (digitsValue cs) else none
  else none

/-- The key `k` is enumerated before a distinct key `l`, when `l` was created
after `k` or is an index key that sorts behind it. -/
def keyBefore (k l : String) : Prop :=
  match arrayIndex? k, arrayIndex? l with
  | some i, some j => i < j
  | some _, none => True
  | none, some _ => False
  | none, none => True

instance (k l : String) : Decidable (keyBefore k l) := by
  unfold keyBefore; split <;> infer_instance

/-- Names of the own properties, `Object.keys`. -/
def keys (o : Obj) : List String := o.map Prod.fst

/-- Own properties as pairs, `Object.entries`. -/
def entries (o : Obj) : List (String × JsVal) := o

/-- A list of properties is an object in property order: keys are distinct,
index keys come first in ascending order. -/
def Obj.WF (o : Obj) : Prop :=
  (keys o).Nodup ∧ (keys o).Pairwise keyBefore

instance (o : Obj) : Decidable (Obj.WF o) := by
  unfold Obj.WF; infer_instance

/-- Property read `o[k]` / `o.k` on own properties; an absent property reads
as `undefined`. -/
def getProp : Obj → String → JsVal
  | [], _ => .undefined
  | (k, v) :: rest, name => if k = name then v else getProp rest name

/-- Does the object have an own property named `k`? -/
def hasProp (o : Obj) (k : String) : Bool := (keys o).contains k

/-- Position a newly created property takes in property order. -/
def insertNew : Obj → String → JsVal → Obj
  | [], k, v => [(k, v)]
  | (l, w) :: rest, k, v =>
    match arrayIndex? k with
    | none => (l, w) :: insertNew rest k v
    | some i =>
      match arrayIndex? l with
      | some j => if j < i then (l, w) :: insertNew rest k v else (k, v) :: (l, w) :: rest
      | none => (k, v) :: (l, w) :: rest

/-- The effect of `CreateDataProperty`: an existing property keeps its place
and takes the new value, a new one is added in property order. -/
def setProp (o : Obj) (k : String) (v : JsVal) : Obj :=
  if hasProp o k then o.map (fun e => if e.1 = k then (k, v) else e)
  else insertNew o k v

/-- The builtin `Object.fromEntries` on a list of pairs. -/
def fromEntries (es : List (String × JsVal)) : Obj :=
  es.foldl (fun acc e => setProp acc e.1 e.2) []

/-- The helper of `src/index.js`, lines 15-20:
`Object.fromEntries(Object.entries(obj).filter(([_, v]) =>
    v !== undefined && v !== null && v !== ""))`. -/
def cleanObject (obj : Obj) : Obj :=
  fromEntries
    ((entries obj).filter
      (fun e => strictNe e.2 .undefined && strictNe e.2 .null && strictNe e.2 (.str "")))

/-! ## Request validation (the Joi schemas of the three POST handlers) -/

/-- The value of `s.length` in JavaScript: the number of UTF-16 code units. -/
def jsLength (s : String) : Nat :=
  (s.toList.map (fun c => if c.toNat < 65536 then 1 else 2)).sum

/-- String rules used by the schemas: `.email()` and `.min(limit)`. -/
inductive StringRule where
  | email
  | min (limit : Nat)
  deriving DecidableEq

/-- One key of a `Joi.object`, always of the form
`Joi.string()<rules>.required()` in this program. -/
structure FieldSchema where
  key : String
  rules : List StringRule
  deriving DecidableEq

/-- Schema of `POST /api/admin/register` (`src/index.js`, lines 24-28). -/
def registerSchema : List FieldSchema :=
  [⟨"name", []⟩, ⟨"email", [.email]⟩, ⟨"password", [.min 6]⟩]

/-- Schema of `POST /api/admin/login` (`src/index.js`, lines 81-84). -/
def loginSchema : List FieldSchema :=
  [⟨"email", [.email]⟩, ⟨"password", []⟩]

/-- Schema of `POST /api/contact` (`src/index.js`, lines 133-138). -/
def contactSchema : List FieldSchema :=
  [⟨"name", []⟩, ⟨"email", [.email]⟩, ⟨"subject", []⟩, ⟨"message", []⟩]

/-- The label Joi puts in front of a message: the key in double quotes. -/
def quoted (key : String) : String := "\"" ++ key ++ "\""

/-- Check of one rule on a non-empty string; the result is the error message. -/
def checkRule (isEmail : String → Bool) (key : String) (s : String) : StringRule → Option String
  | .email => if isEmail s then none else some (quoted key ++ " must be a valid email")
  | .min limit =>
    if limit ≤ jsLength s then none
    else some (quoted key ++ " length must be at least " ++ toString limit ++ " characters long")

/-- Check of `Joi.string()<rules>.required()` on the value read from the
body: an absent value is an error, a value that is not a string is an error,
the empty string is an error, then the rules apply in order. -/
def validateField (isEmail : String → Bool) (f : FieldSchema) : JsVal → Option String
  | .undefined => some (quoted f.key ++ " is required")
  | .str s =>
    if s = "" then some (quoted f.key ++ " is not allowed to be empty")
    else f.rules.findSome? (checkRule isEmail f.key s)
  | _ => some (quoted f.key ++ " must be a string")

/-- The call `schema.validate(req.body)` with default options: the keys of
the schema are checked in order, then a key of the body that the schema does
not name is an error; the first error ends the validation.  The result is
`error.details[0].message`, or `none` when there is no error. -/
def validate (isEmail : String → Bool) (schema : List FieldSchema) (body : Obj) :
    Option String :=
  match schema.findSome? (fun f => validateField isEmail f (getProp body f.key)) with
  | some msg => some msg
  | none =>
    match (keys body).find? (fun k => !(schema.map FieldSchema.key).contains k) with
    | some k => some (quoted k ++ " is not allowed")
    | none => none

/-- The call `schema.validate(req.body)` on the value found in `req.body`.
The schemas are `Joi.object({...})` without `.required()`, so an `undefined`
body is accepted without looking at the keys; an object is checked key by
key; an array is not of type object.  (`express.json()` hands over objects
and arrays only, or leaves `req.body` undefined; the remaining values are
listed as type errors for completeness.) -/
def validateBody (isEmail : String → Bool) (schema : List FieldSchema) :
    JsVal → Option String
  | .undefined => none
  | .obj body => validate isEmail schema body
  | _ => some (quoted "value" ++ " must be of type object")

/-! ## Collaborators and responses -/

/-- The library functions the handlers call.  `isEmail` is the format check
behind `Joi.string().email()`; `hash data rounds` is the outcome of
`bcrypt.hash(data, rounds)` for this request (the salt is drawn by the
library), `compare data encrypted` that of `bcrypt.compare`; an error holds
the `message` of the exception. -/
structure Env where
  isEmail : String → Bool
  hash : JsVal → Nat → Except String String
  compare : JsVal → JsVal → Except String Bool

deriving instance DecidableEq for Except

/-- The connection pool: `pool sql values s` is the outcome of
`await pool.query(sql, values)` in store state `s`, the rows of the result
or the `message` of the exception, and the store state after the call. -/
abbrev Pool (σ : Type) := String → List JsVal → σ → Except String (List Obj) × σ

/-- What a handler sends: `res.status(status).json(body)`. -/
structure Response where
  status : Nat
  body : Obj
  deriving DecidableEq

/-- The body `{ success: false, message: msg, error: err }`. -/
def failure (msg err : String) : Obj :=
  [("success", .bool false), ("message", .str msg), ("error", .str err)]

/-- The body `{ success: true, message: msg }`. -/
def success (msg : String) : Obj :=
  [("success", .bool true), ("message", .str msg)]

/-- The response of every `catch (err)` block. -/
def serverError (errMessage : String) : Response :=
  ⟨500, failure "Server error" errMessage⟩

/-- The INSERT statement and its bound values, built from the cleaned data
(`src/index.js`, lines 58-63 and 156-161):
`fields = Object.keys(data)`, `placeholders = fields.map(() => "?").join(", ")`,
`values = fields.map((k) => data[k])`, and the template
`INSERT INTO <table> (<fields.join(", ")>) VALUES (<placeholders>)`. -/
def insertStatement (table : String) (data : Obj) : String × List JsVal :=
  let fields := keys data
  let placeholders := ", ".intercalate (fields.map (fun _ => "?"))
  let values := fields.map (fun k => getProp data k)
  ("INSERT INTO " ++ table ++ " (" ++ ", ".intercalate fields ++ ") VALUES (" ++
    placeholders ++ ")", values)

/-! ## The handlers -/

variable {σ : Type}

/-- A single quote, as it occurs in error messages. -/
def sq : String := String.singleton (Char.ofNat 39)

/-- The properties a read `req.body.<name>` or a destructuring of `req.body`
works on.  Reading from `undefined` or `null` throws a `TypeError`; the
error holds the word naming the value.  An object gives its properties; an
array or a primitive has none of the properties the handlers read. -/
def ownProps : JsVal → Except String Obj
  | .undefined => .error "undefined"
  | .null => .error "null"
  | .obj o => .ok o
  | _ => .ok []

/-- Message of the `TypeError` thrown by `const { <prop>, ... } = req.body`
when `req.body` is `undefined` or `null`. -/
def destructureError (prop what : String) : String :=
  "Cannot destructure property " ++ sq ++ prop ++ sq ++ " of " ++ sq ++ "req.body" ++ sq ++
    " as it is " ++ what ++ "."

/-- Message of the `TypeError` thrown by the read `req.body.<prop>` when
`req.body` is `undefined` or `null`. -/
def readError (prop what : String) : String :=
  "Cannot read properties of " ++ what ++ " (reading " ++ sq ++ prop ++ sq ++ ")"

/-- The data `POST /api/admin/register` cleans (`src/index.js`, lines 52-56):
`cleanObject({ name: req.body.name, email, password: hashedPassword })`, with
`email` read from `req.body`. -/
def registerData (body : Obj) (hashedPassword : String) : Obj :=
  cleanObject
    [("name", getProp body "name"), ("email", getProp body "email"),
     ("password", .str hashedPassword)]

/-- The data `POST /api/contact` cleans (`src/index.js`, lines 149-154). -/
def contactData (body : Obj) : Obj :=
  cleanObject
    [("name", getProp body "name"), ("email", getProp body "email"),
     ("subject", getProp body "subject"), ("message", getProp body "message")]

/-- The handler `POST /api/admin/register` (`src/index.js`, lines 23-77). -/
def adminRegister (env : Env) (pool : Pool σ) (reqBody : JsVal) (s : σ) : Response × σ :=
  match validateBody env.isEmail registerSchema reqBody with
  | some msg => (⟨400, failure msg msg⟩, s)
  | none =>
    match ownProps reqBody with
    | .error what => (serverError (destructureError "email" what), s)
    | .ok body =>
      let email := getProp body "email"
      let password := getProp body "password"
      match pool "SELECT id FROM admin WHERE email = ?" [email] s with
      | (.error m, s1) => (serverError m, s1)
      | (.ok found, s1) =>
        if found.length > 0 then
          (⟨409, failure "Admin already exists" "Admin already exists"⟩, s1)
        else
          match env.hash password 10 with
          | .error m => (serverError m, s1)
          | .ok hashedPassword =>
            let data := registerData body hashedPassword
            let stmt := insertStatement "admin" data
            match pool stmt.1 stmt.2 s1 with
            | (.error m, s2) => (serverError m, s2)
            | (.ok _, s2) => (⟨201, success "Admin registered successfully"⟩, s2)

/-- The handler `POST /api/admin/login` (`src/index.js`, lines 80-129). -/
def adminLogin (env : Env) (pool : Pool σ) (reqBody : JsVal) (s : σ) : Response × σ :=
  match validateBody env.isEmail loginSchema reqBody with
  | some msg => (⟨400, failure msg msg⟩, s)
  | none =>
    match ownProps reqBody with
    | .error what => (serverError (destructureError "email" what), s)
    | .ok body =>
      let email := getProp body "email"
      let password := getProp body "password"
      match pool "SELECT * FROM admin WHERE email = ?" [email] s with
      | (.error m, s1) => (serverError m, s1)
      | (.ok [], s1) =>
        (⟨401, failure "Invalid email or password" "Invalid email or password"⟩, s1)
      | (.ok (admin :: _), s1) =>
        match env.compare password (getProp admin "password") with
        | .error m => (serverError m, s1)
        | .ok false =>
          (⟨401, failure "Invalid email or password" "Invalid email or password"⟩, s1)
        | .ok true =>
          (⟨200, success "Login successful" ++
              [("admin", .obj [("id", getProp admin "id"), ("name", getProp admin "name"),
                               ("email", getProp admin "email")])]⟩, s1)

/-- The handler `POST /api/contact` (`src/index.js`, lines 132-175). -/
def contactCreate (env : Env) (pool : Pool σ) (reqBody : JsVal) (s : σ) : Response × σ :=
  match validateBody env.isEmail contactSchema reqBody with
  | some msg => (⟨400, failure msg msg⟩, s)
  | none =>
    match ownProps reqBody with
    | .error what => (serverError (readError "name" what), s)
    | .ok body =>
      let data := contactData body
      let stmt := insertStatement "contact" data
      match pool stmt.1 stmt.2 s with
      | (.error m, s1) => (serverError m, s1)
      | (.ok _, s1) => (⟨201, success "Contact submitted successfully"⟩, s1)

/-- The handler `GET /api/contact` (`src/index.js`, lines 178-193). -/
def contactList (pool : Pool σ) (s : σ) : Response × σ :=
  match pool "SELECT * FROM contact" [] s with
  | (.error m, s1) => (serverError m, s1)
  | (.ok rows, s1) =>
    (⟨200, success "Contacts fetched successfully" ++
        [("contacts", .arr (rows.map JsVal.obj))]⟩, s1)

/-- A pool that also keeps the list of the queries it was asked to run. -/
def recording (pool : Pool σ) : Pool (σ × List (String × List JsVal)) :=
  fun sql values st => ((pool sql values st.1).1, ((pool sql values st.1).2, st.2 ++ [(sql, values)]))

/-! ## The store: the tables of `src/db.js` under MySQL -/

/-- A row of `admin` (`src/db.js`, lines 18-25). -/
structure AdminRow where
  id : Nat
  name : String
  email : String
  password : String
  createdAt : Int
  updatedAt : Option Int
  deriving DecidableEq

/-- A row of `contact` (`src/db.js`, lines 29-37). -/
structure ContactRow where
  id : Nat
  name : String
  email : String
  subject : String
  message : String
  createdAt : Int
  updatedAt : Option Int
  deriving DecidableEq

/-- The store state: the rows of both tables in primary-key order and the
next `AUTO_INCREMENT` value of each. -/
structure Db where
  admin : List AdminRow
  contact : List ContactRow
  adminNextId : Nat
  contactNextId : Nat
  deriving DecidableEq

/-- Server settings the table definitions leave open.  `strict` is the SQL
mode (`STRICT_TRANS_TABLES`, the default of the server); `collationKey` is
the weight string of the column collation: two texts are equal for `=` and
for a `UNIQUE` index exactly when their keys are equal. -/
structure MySqlConfig where
  strict : Bool
  collationKey : String → String

/-- A nullable `TIMESTAMP` as the driver returns it. -/
def timestampVal : Option Int → JsVal
  | none => .null
  | some t => .date t

/-- A row of `admin` as the object `SELECT *` returns. -/
def adminRowObj (r : AdminRow) : Obj :=
  [("id", .num r.id), ("name", .str r.name), ("email", .str r.email),
   ("password", .str r.password), ("createdAt", .date r.createdAt),
   ("updatedAt", timestampVal r.updatedAt)]

/-- A row of `contact` as the object `SELECT *` returns. -/
def contactRowObj (r : ContactRow) : Obj :=
  [("id", .num r.id), ("name", .str r.name), ("email", .str r.email),
   ("subject", .str r.subject), ("message", .str r.message),
   ("createdAt", .date r.createdAt), ("updatedAt", timestampVal r.updatedAt)]

/-- Remove the leading characters `p` from `cs`, if `cs` starts with them. -/
def stripLead : List Char → List Char → Option (List Char)
  | [], cs => some cs
  | _ :: _, [] => none
  | p :: ps, c :: cs => if p = c then stripLead ps cs else none

/-- Split at the first occurrence of `stop`: the text before it and after it. -/
def splitAtChar (stop : Char) : List Char → Option (List Char × List Char)
  | [] => none
  | c :: cs =>
    if c = stop then some ([], cs)
    else (splitAtChar stop cs).map (fun r => (c :: r.1, r.2))

/-- Split a text into the items separated by a comma and a blank; `cur` holds
the item being read, in reverse, and `comma` tells that the last character
read was a comma that is not yet part of `cur`. -/
def splitItems : List Char → List Char → Bool → List String
  | [], cur, comma => [String.mk (if comma then ',' :: cur else cur).reverse]
  | c :: cs, cur, comma =>
    if comma then
      if c = ' ' then String.mk cur.reverse :: splitItems cs [] false
      else if c = ',' then splitItems cs (',' :: cur) true
      else splitItems cs (c :: ',' :: cur) false
    else if c = ',' then splitItems cs cur true
    else splitItems cs (c :: cur) false

/-- The list between a pair of brackets: empty, or items separated by `, `. -/
def listItems (cs : List Char) : List String :=
  if cs.isEmpty then [] else splitItems cs [] false

/-- A statement `INSERT INTO <table> (<columns>) VALUES (<slots>)`. -/
structure InsertStmt where
  table : String
  columns : List String
  slots : Nat
  deriving DecidableEq

/-- Recognise the INSERT statements the template of the handlers produces. -/
def parseInsert (sql : String) : Option InsertStmt := do
  let rest ← stripLead "INSERT INTO ".toList sql.toList
  let (table, rest) ← splitAtChar ' ' rest
  let rest ← stripLead "(".toList rest
  let (cols, rest) ← splitAtChar ')' rest
  let rest ← stripLead " VALUES (".toList rest
  let (slots, rest) ← splitAtChar ')' rest
  if rest.isEmpty && (listItems slots).all (fun x => x == "?") then
    some ⟨String.mk table, listItems cols, (listItems slots).length⟩
  else none

/-- The longest leading part of a text that takes at most `budget` bytes. -/
def takeBytes : Nat → List Char → List Char
  | _, [] => []
  | budget, c :: cs =>
    if c.utf8Size ≤ budget then c :: takeBytes (budget - c.utf8Size) cs else []

/-- Capacity of a text column: `VARCHAR(n)` holds `n` characters, `TEXT`
holds 65535 bytes. -/
inductive TextType where
  | varchar (n : Nat)
  | text
  deriving DecidableEq

/-- Does the text fit the column? -/
def TextType.fits : TextType → String → Bool
  | .varchar n, s => s.length ≤ n
  | .text, s => s.utf8ByteSize ≤ 65535

/-- The text cut to the capacity of the column. -/
def TextType.cut : TextType → String → String
  | .varchar n, s => String.mk (s.toList.take n)
  | .text, s => String.mk (takeBytes 65535 s.toList)

/-- The value bound to column `c` by an INSERT, if the statement names `c`. -/
def columnValue (cols : List String) (vals : List JsVal) (c : String) : Option JsVal :=
  (cols.zip vals).lookup c

/-- The text stored in a `NOT NULL` text column without default.  A column
the statement does not name is an error in strict mode and the empty text
otherwise; a text beyond the capacity is an error in strict mode and is cut
otherwise; NULL is an error.  The handlers bind strings only (every bound
value passed `Joi.string()` or is the result of `bcrypt.hash`), so a value
of any other type is reported as an error. -/
def storeText (cfg : MySqlConfig) (column : String) (ty : TextType) :
    Option JsVal → Except String String
  | none =>
    if cfg.strict then .error ("Field " ++ sq ++ column ++ sq ++ " doesn" ++ sq ++ "t have a default value")
    else .ok ""
  | some (.str s) =>
    if ty.fits s then .ok s
    else if cfg.strict then
      .error ("Data too long for column " ++ sq ++ column ++ sq ++ " at row 1")
    else .ok (ty.cut s)
  | some .null => .error ("Column " ++ sq ++ column ++ sq ++ " cannot be null")
  | some .undefined => .error ("Column " ++ sq ++ column ++ sq ++ " cannot be null")
  | some _ => .error "Unsupported parameter type"

/-- Do two e-mail texts compare equal under the column collation? -/
def sameEmail (cfg : MySqlConfig) (a b : String) : Bool :=
  cfg.collationKey a == cfg.collationKey b

/-- Checks common to both tables: every named column is a text column of the
table (the handlers never name `id`, `createdAt` or `updatedAt`), no column
is named twice, and there are as many values as columns. -/
def checkColumns (textColumns cols : List String) (slots : Nat) (vals : List JsVal) :
    Except String Unit :=
  if slots ≠ vals.length then .error "You have an error in your SQL syntax"
  else if cols.length ≠ slots then .error ("Column count doesn" ++ sq ++ "t match value count at row 1")
  else
    match cols.find? (fun c => !textColumns.contains c) with
    | some c => .error ("Unknown column " ++ sq ++ c ++ sq ++ " in " ++ sq ++ "field list" ++ sq)
    | none =>
      if cols.Nodup then .ok ()
      else .error "Column specified twice"

/-- Execution of `INSERT INTO admin (...)`: `name VARCHAR(100) NOT NULL`,
`email VARCHAR(100) NOT NULL UNIQUE`, `password VARCHAR(255) NOT NULL`,
`id` from `AUTO_INCREMENT`, `createdAt` from the clock, `updatedAt` NULL. -/
def insertAdmin (cfg : MySqlConfig) (now : Int) (cols : List String) (slots : Nat)
    (vals : List JsVal) (s : Db) : Except String AdminRow := do
  checkColumns ["name", "email", "password"] cols slots vals
  let name ← storeText cfg "name" (.varchar 100) (columnValue cols vals "name")
  let email ← storeText cfg "email" (.varchar 100) (columnValue cols vals "email")
  let password ← storeText cfg "password" (.varchar 255) (columnValue cols vals "password")
  if s.admin.any (fun r => sameEmail cfg r.email email) then
    .error ("Duplicate entry " ++ sq ++ email ++ sq ++ " for key " ++ sq ++ "admin.email" ++ sq)
  else
    .ok ⟨s.adminNextId, name, email, password, now, none⟩

/-- Execution of `INSERT INTO contact (...)`: `name VARCHAR(100) NOT NULL`,
`email VARCHAR(100) NOT NULL`, `subject VARCHAR(255) NOT NULL`,
`message TEXT NOT NULL`, `id`, `createdAt`, `updatedAt` as for `admin`. -/
def insertContact (cfg : MySqlConfig) (now : Int) (cols : List String) (slots : Nat)
    (vals : List JsVal) (s : Db) : Except String ContactRow := do
  checkColumns ["name", "email", "subject", "message"] cols slots vals
  let name ← storeText cfg "name" (.varchar 100) (columnValue cols vals "name")
  let email ← storeText cfg "email" (.varchar 100) (columnValue cols vals "email")
  let subject ← storeText cfg "subject" (.varchar 255) (columnValue cols vals "subject")
  let message ← storeText cfg "message" .text (columnValue cols vals "message")
  .ok ⟨s.contactNextId, name, email, subject, message, now, none⟩

/-- The rows of `admin` whose e-mail equals the bound value. -/
def adminByEmail (cfg : MySqlConfig) (s : Db) (e : String) : List AdminRow :=
  s.admin.filter (fun r => sameEmail cfg r.email e)

/-- The reference store: the four statement forms of `src/index.js` run
against the tables of `src/db.js`; `now` is the reading of the server clock.
A query that fails leaves the tables as they were. -/
def mysql (cfg : MySqlConfig) (now : Int) : Pool Db := fun sql values s =>
  if sql = "SELECT id FROM admin WHERE email = ?" then
    match values with
    | [.str e] => (.ok ((adminByEmail cfg s e).map (fun r => [("id", .num r.id)])), s)
    | _ => (.error "Unsupported parameter type", s)
  else if sql = "SELECT * FROM admin WHERE email = ?" then
    match values with
    | [.str e] => (.ok ((adminByEmail cfg s e).map adminRowObj), s)
    | _ => (.error "Unsupported parameter type", s)
  else if sql = "SELECT * FROM contact" then
    (.ok (s.contact.map contactRowObj), s)
  else
    match parseInsert sql with
    | none => (.error "You have an error in your SQL syntax", s)
    | some stmt =>
      if stmt.table = "admin" then
        match insertAdmin cfg now stmt.columns stmt.slots values s with
        | .error m => (.error m, s)
        | .ok row =>
          (.ok [], { s with admin := s.admin ++ [row], adminNextId := s.adminNextId + 1 })
      else if stmt.table = "contact" then
        match insertContact cfg now stmt.columns stmt.slots values s with
        | .error m => (.error m, s)
        | .ok row =>
          (.ok [], { s with contact := s.contact ++ [row],
                            contactNextId := s.contactNextId + 1 })
      else (.error ("Table " ++ sq ++ stmt.table ++ sq ++ " doesn" ++ sq ++ "t exist"), s)

/-! ## The four routes as one function -/

/-- The routes of the service. -/
inductive Route where
  | register
  | login
  | contactCreate
  | contactList
  deriving DecidableEq

/-- The handler of a route. -/
def handle {σ : Type} (env : Env) (pool : Pool σ) : Route → JsVal → σ → Response × σ
  | .register, body, s => adminRegister env pool body s
  | .login, body, s => adminLogin env pool body s
  | .contactCreate, body, s => contactCreate env pool body s
  | .contactList, _, s => contactList pool s

/-- The request passes the validation of the route; the listing route has
none. -/
def passesValidation (env : Env) : Route → JsVal → Prop
  | .register, body => validateBody env.isEmail registerSchema body = none
  | .login, body => validateBody env.isEmail loginSchema body = none
  | .contactCreate, body => validateBody env.isEmail contactSchema body = none
  | .contactList, _ => True

instance (env : Env) (r : Route) (body : JsVal) : Decidable (passesValidation env r body) := by
  cases r <;> unfold passesValidation <;> infer_instance

/-- A step the handler of the route reaches on this request throws an error
with message `m`: one of its queries, the hash step or the compare step.
For registration the steps are the lookup, then (only when the lookup found
no row) the hash and the insert; for login the lookup, then (only when it
found a row) the comparison with the hash of the first row.  The three POST
handlers reach a step only on an object body: an array does not pass
validation and a read from an absent body throws before any step. -/
def StepFails {σ : Type} (env : Env) (pool : Pool σ) (m : String) : Route → JsVal → σ → Prop
  | .register, .obj body, s =>
    (pool "SELECT id FROM admin WHERE email = ?" [getProp body "email"] s).1 = .error m ∨
    ((pool "SELECT id FROM admin WHERE email = ?" [getProp body "email"] s).1 = .ok [] ∧
      (env.hash (getProp body "password") 10 = .error m ∨
        ∃ h, env.hash (getProp body "password") 10 = .ok h ∧
          (pool (insertStatement "admin" (registerData body h)).1
            (insertStatement "admin" (registerData body h)).2
            (pool "SELECT id FROM admin WHERE email = ?" [getProp body "email"] s).2).1 =
            .error m))
  | .login, .obj body, s =>
    (pool "SELECT * FROM admin WHERE email = ?" [getProp body "email"] s).1 = .error m ∨
    ∃ r rs,
      (pool "SELECT * FROM admin WHERE email = ?" [getProp body "email"] s).1 = .ok (r :: rs) ∧
      env.compare (getProp body "password") (getProp r "password") = .error m
  | .contactCreate, .obj body, s =>
    (pool (insertStatement "contact" (contactData body)).1
      (insertStatement "contact" (contactData body)).2 s).1 = .error m
  | .contactList, _, s => (pool "SELECT * FROM contact" [] s).1 = .error m
  | _, _, _ => False

/-! ## Sample collaborators, used to instantiate the theorems -/

/-- A text of `n` letters `a`. -/
def letters (n : Nat) : String := String.mk (List.replicate n 'a')

/-- A stand-in for the e-mail format check: one `@` with text on both sides
and a dot in the domain part. -/
def sampleIsEmail (s : String) : Bool :=
  match splitAtChar '@' s.toList with
  | some (l, d) => !l.isEmpty && !d.contains '@' && d.contains '.' && d.head? != some '.'
  | none => false

/-- A stand-in for `bcrypt`: the digest is the text behind a fixed header. -/
def sampleEnv : Env where
  isEmail := sampleIsEmail
  hash data _ :=
    match data with
    | .str p => .ok ("$2b$10$" ++ p)
    | _ => .error "data must be a string or Buffer and salt must either be a salt string or a number of rounds"
  compare data encrypted :=
    match data, encrypted with
    | .str p, .str h => .ok (h == "$2b$10$" ++ p)
    | _, _ => .error "data and hash must be strings"

/-- A strict server with a binary collation. -/
def strictConfig : MySqlConfig := ⟨true, id⟩

/-- A server without strict mode, with a binary collation. -/
def looseConfig : MySqlConfig := ⟨false, id⟩

/-- The store right after `initDB`: both tables empty. -/
def emptyDb : Db := ⟨[], [], 1, 1⟩

/-- A store holding one administrator, registered with the secret `secret1`
under `sampleEnv`. -/
def oneAdminDb : Db :=
  ⟨[⟨1, "A", "a@x.com", "$2b$10$secret1", 0, none⟩], [], 2, 1⟩

/-- The row of `oneAdminDb` as the driver returns it. -/
def oneAdminRow : Obj := adminRowObj ⟨1, "A", "a@x.com", "$2b$10$secret1", 0, none⟩

/-- A login body for an e-mail no row has. -/
def unknownLogin : Obj := [("email", .str "b@x.com"), ("password", .str "secret1")]

/-- A login body for the e-mail of `oneAdminDb` with a wrong secret. -/
def wrongSecretLogin : Obj := [("email", .str "a@x.com"), ("password", .str "wrong")]

/-- A login body for the e-mail of `oneAdminDb` with the right secret. -/
def goodLogin : Obj := [("email", .str "a@x.com"), ("password", .str "secret1")]

/-- A registration body whose name has 101 characters. -/
def longNameRegistration : Obj :=
  [("name", .str (letters 101)), ("email", .str "a@x.com"), ("password", .str "secret1")]

/-- A registration body that fits the columns of `admin`. -/
def sampleRegistration : Obj :=
  [("name", .str "A"), ("email", .str "a@x.com"), ("password", .str "secret1")]

/-- An e-mail address of 125 characters: 60 letters, `@`, 60 letters, `.com`. -/
def longEmail : String := letters 60 ++ "@" ++ letters 60 ++ ".com"

/-- A registration body whose e-mail has 125 characters. -/
def longEmailRegistration : Obj :=
  [("name", .str "A"), ("email", .str longEmail), ("password", .str "secret1")]

/-- A contact body that fits the columns of `contact`. -/
def sampleContact : Obj :=
  [("name", .str "B"), ("email", .str "b@x.com"), ("subject", .str "Hi"),
   ("message", .str "Hello")]

/-- A contact body whose name has 101 characters. -/
def longNameContact : Obj :=
  [("name", .str (letters 101)), ("email", .str "b@x.com"), ("subject", .str "Hi"),
   ("message", .str "Hello")]

/-- A contact body whose subject has 256 characters. -/
def longSubjectContact : Obj :=
  [("name", .str "B"), ("email", .str "b@x.com"), ("subject", .str (letters 256)),
   ("message", .str "Hello")]

/-- A store holding one contact message. -/
def oneContactDb : Db :=
  ⟨[], [⟨1, "C", "c@x.com", "Old", "Earlier message", 0, none⟩], 1, 2⟩

/-! ## Basic facts about objects -/

theorem insertNew_append (o : Obj) (k : String) (v : JsVal)
    (h : ∀ l ∈ keys o, keyBefore l k) : insertNew o k v = o ++ [(k, v)] := by
  induction o with
  | nil => rfl
  | cons e rest ih =>
    obtain ⟨l, w⟩ := e
    have hl : keyBefore l k := h l (by simp [keys])
    have hrest : ∀ l ∈ keys rest, keyBefore l k := fun x hx => h x (by
      simp only [keys, List.map_cons, List.mem_cons]; exact Or.inr hx)
    simp only [insertNew, List.cons_append]
    unfold keyBefore at hl
    cases hk : arrayIndex? k with
    | none => simp [ih hrest]
    | some i =>
      cases hlk : arrayIndex? l with
      | none => simp [hk, hlk] at hl
      | some j =>
        simp only [hk, hlk] at hl
        simp [hl, ih hrest]

theorem setProp_append (o : Obj) (k : String) (v : JsVal)
    (h : Obj.WF (o ++ [(k, v)])) : setProp o k v = o ++ [(k, v)] := by
  obtain ⟨hnd, hpw⟩ := h
  simp only [keys, List.map_append, List.map_cons, List.map_nil] at hnd hpw
  have hnot : k ∉ keys o := by
    intro hk
    have := (List.nodup_append.mp hnd).2.2
    exact this hk (by simp)
  have hbefore : ∀ l ∈ keys o, keyBefore l k := by
    intro l hl
    exact (List.pairwise_append.mp hpw).2.2 l hl k (by simp)
  unfold setProp hasProp
  have hc : (keys o).contains k = false := by
    simpa using hnot
  rw [hc, insertNew_append o k v hbefore]
  rfl

theorem WF_of_append_left (a b : Obj) (h : Obj.WF (a ++ b)) : Obj.WF a := by
  obtain ⟨hnd, hpw⟩ := h
  simp only [keys, List.map_append] at hnd hpw
  exact ⟨(List.nodup_append.mp hnd).1, (List.pairwise_append.mp hpw).1⟩

theorem foldl_setProp_append (l acc : Obj) (h : Obj.WF (acc ++ l)) :
    l.foldl (fun a e => setProp a e.1 e.2) acc = acc ++ l := by
  induction l generalizing acc with
  | nil => simp
  | cons e rest ih =>
    have h2 : Obj.WF ((acc ++ [e]) ++ rest) := by simpa using h
    have h1 : Obj.WF (acc ++ [(e.1, e.2)]) := WF_of_append_left _ _ h2
    simp only [List.foldl_cons]
    rw [setProp_append acc e.1 e.2 h1, ih _ h2]
    simp

theorem fromEntries_of_WF (o : Obj) (h : Obj.WF o) : fromEntries o = o := by
  unfold fromEntries
  simpa using foldl_setProp_append o [] (by simpa using h)

theorem WF_filter (p : String × JsVal → Bool) (o : Obj) (h : Obj.WF o) :
    Obj.WF (o.filter p) := by
  have hs : List.Sublist (keys (o.filter p)) (keys o) :=
    List.Sublist.map _ (List.filter_sublist o)
  exact ⟨h.1.sublist hs, h.2.sublist hs⟩

theorem strictNe_undefined (v : JsVal) : strictNe v .undefined = true ↔ v ≠ .undefined := by
  cases v <;> simp [strictNe]

theorem strictNe_null (v : JsVal) : strictNe v .null = true ↔ v ≠ .null := by
  cases v <;> simp [strictNe]

theorem strictNe_empty (v : JsVal) : strictNe v (.str "") = true ↔ v ≠ .str "" := by
  cases v <;> simp [strictNe]

/-- On an object, `cleanObject` is the filter of its entries. -/
theorem cleanObject_eq_filter (obj : Obj) (h : Obj.WF obj) :
    cleanObject obj = obj.filter
      (fun e => strictNe e.2 .undefined && strictNe e.2 .null && strictNe e.2 (.str "")) := by
  unfold cleanObject entries
  exact fromEntries_of_WF _ (WF_filter _ obj h)


theorem keys_update (o : Obj) (k : String) (v : JsVal) :
    keys (o.map (fun e => if e.1 = k then (k, v) else e)) = keys o := by
  unfold keys
  rw [List.map_map]
  apply List.map_congr_left
  intro e _
  by_cases h : e.1 = k <;> simp [h]

theorem keys_insertNew_perm (o : Obj) (k : String) (v : JsVal) :
    (keys (insertNew o k v)).Perm (k :: keys o) := by
  induction o with
  | nil => simp [insertNew, keys]
  | cons e rest ih =>
    obtain ⟨l, w⟩ := e
    have hswap : (l :: keys (insertNew rest k v)).Perm (k :: l :: keys rest) :=
      ((List.Perm.cons l ih).trans (List.Perm.swap k l (keys rest)))
    simp only [insertNew]
    cases hk : arrayIndex? k with
    | none => simpa [keys] using hswap
    | some i =>
      cases hl : arrayIndex? l with
      | none => simp [keys]
      | some j =>
        by_cases hji : j < i
        · simpa [keys, hji] using hswap
        · simp [keys, hji]

theorem nodup_keys_setProp (o : Obj) (k : String) (v : JsVal) (h : (keys o).Nodup) :
    (keys (setProp o k v)).Nodup := by
  unfold setProp
  by_cases hk : hasProp o k = true
  · simp only [hk, if_true]
    rw [keys_update]; exact h
  · simp only [hk]
    have hnot : k ∉ keys o := by
      simpa [hasProp] using hk
    exact ((keys_insertNew_perm o k v).nodup_iff).mpr (List.nodup_cons.mpr ⟨hnot, h⟩)

theorem nodup_keys_foldl (es : List (String × JsVal)) (acc : Obj) (h : (keys acc).Nodup) :
    (keys (es.foldl (fun a e => setProp a e.1 e.2) acc)).Nodup := by
  induction es generalizing acc with
  | nil => simpa using h
  | cons e rest ih => exact ih _ (nodup_keys_setProp acc e.1 e.2 h)

theorem nodup_keys_fromEntries (es : List (String × JsVal)) : (keys (fromEntries es)).Nodup :=
  nodup_keys_foldl es [] (by simp [keys])

theorem nodup_keys_cleanObject (obj : Obj) : (keys (cleanObject obj)).Nodup :=
  nodup_keys_fromEntries _

theorem getProp_of_mem (o : Obj) (hnd : (keys o).Nodup) (k : String) (v : JsVal)
    (h : (k, v) ∈ o) : getProp o k = v := by
  induction o with
  | nil => simp at h
  | cons e rest ih =>
    obtain ⟨l, w⟩ := e
    simp only [keys, List.map_cons, List.nodup_cons] at hnd
    simp only [getProp]
    rcases List.mem_cons.mp h with heq | hmem
    · cases heq; simp
    · have hne : l ≠ k := by
        intro hlk
        apply hnd.1
        rw [hlk]
        exact List.mem_map.mpr ⟨(k, v), hmem, rfl⟩
      simp [hne, ih hnd.2 hmem]

theorem map_getProp_keys (o : Obj) (hnd : (keys o).Nodup) :
    (keys o).map (fun k => getProp o k) = o.map Prod.snd := by
  unfold keys
  rw [List.map_map]
  apply List.map_congr_left
  intro e he
  exact getProp_of_mem o hnd e.1 e.2 he

/-! ## `cleanObject` and the INSERT statement -/

/-- C1: on every object, `cleanObject` returns exactly the entries whose value
is neither `undefined`, nor `null`, nor the empty string, in the order of the
object and with the values unchanged; in particular entries holding `0`,
`false` or a non-empty (also blank-only) string are kept. -/
theorem cleanObject_spec (obj : Obj) (hobj : Obj.WF obj) :
    cleanObject obj =
        obj.filter (fun e => decide (e.2 ≠ .undefined ∧ e.2 ≠ .null ∧ e.2 ≠ .str "")) ∧
      (∀ k n, (k, JsVal.num n) ∈ obj → (k, JsVal.num n) ∈ cleanObject obj) ∧
      (∀ k b, (k, JsVal.bool b) ∈ obj → (k, JsVal.bool b) ∈ cleanObject obj) ∧
      (∀ k s, s ≠ "" → (k, JsVal.str s) ∈ obj → (k, JsVal.str s) ∈ cleanObject obj) := by
  have heq : cleanObject obj =
      obj.filter (fun e => decide (e.2 ≠ .undefined ∧ e.2 ≠ .null ∧ e.2 ≠ .str "")) := by
    rw [cleanObject_eq_filter obj hobj]
    apply List.filter_congr
    intro e _
    rw [Bool.eq_iff_iff]
    simp only [Bool.and_eq_true, strictNe_undefined, strictNe_null, strictNe_empty,
      decide_eq_true_eq, and_assoc]
  refine ⟨heq, ?_, ?_, ?_⟩
  · intro k n h
    rw [heq]; exact List.mem_filter.mpr ⟨h, by simp⟩
  · intro k b h
    rw [heq]; exact List.mem_filter.mpr ⟨h, by simp⟩
  · intro k s hs h
    rw [heq]; exact List.mem_filter.mpr ⟨h, by simp [hs]⟩

/-- An instance of C1 on an object with index keys, `0`, `false`, a blank
string and the three kinds of removed values. -/
theorem cleanObject_spec_witness :
    Obj.WF [("0", .bool false), ("7", .str ""), ("name", .num 0), ("a", .null),
            ("c", .str " "), ("d", .undefined)] ∧
      cleanObject [("0", .bool false), ("7", .str ""), ("name", .num 0), ("a", .null),
                   ("c", .str " "), ("d", .undefined)] =
        [("0", .bool false), ("name", .num 0), ("c", .str " ")] :=
  ⟨by decide,
   (cleanObject_spec [("0", .bool false), ("7", .str ""), ("name", .num 0), ("a", .null),
      ("c", .str " "), ("d", .undefined)] (by decide)).1.trans (by decide)⟩

/-- C9: for the data `cleanObject` returns, the INSERT statement lists the
keys of the data as columns in key order, has one `?` per column, and binds
to the placeholder of each column the value the data holds under that
column: the values are as many as the columns, the value at an index is
`data[fields[index]]`, and columns paired with values are the entries of the
data. -/
theorem insertStatement_spec (table : String) (obj : Obj) :
    (insertStatement table (cleanObject obj)).1 =
        "INSERT INTO " ++ table ++ " (" ++ ", ".intercalate (keys (cleanObject obj)) ++
          ") VALUES (" ++
          ", ".intercalate (List.replicate (keys (cleanObject obj)).length "?") ++ ")" ∧
      (insertStatement table (cleanObject obj)).2.length = (keys (cleanObject obj)).length ∧
      (∀ (i : Nat) (k : String), (keys (cleanObject obj))[i]? = some k →
        (insertStatement table (cleanObject obj)).2[i]? = some (getProp (cleanObject obj) k)) ∧
      (keys (cleanObject obj)).zip (insertStatement table (cleanObject obj)).2 =
        cleanObject obj := by
  have hnd := nodup_keys_cleanObject obj
  generalize cleanObject obj = data at hnd
  refine ⟨?_, ?_, ?_, ?_⟩
  · simp only [insertStatement]
    have : (keys data).map (fun _ => "?") = List.replicate (keys data).length "?" := by
      exact List.map_const _ _
    rw [this]
  · simp [insertStatement]
  · intro i k hk
    simp [insertStatement, List.getElem?_map, hk]
  · simp only [insertStatement]
    rw [map_getProp_keys data hnd]
    unfold keys
    clear hnd
    induction data with
    | nil => rfl
    | cons e rest ih => simp [ih]

/-! ## Validation -/

theorem validateField_eq_none (isEmail : String → Bool) (f : FieldSchema) (v : JsVal)
    (h : validateField isEmail f v = none) :
    ∃ s, v = .str s ∧ s ≠ "" ∧ f.rules.findSome? (checkRule isEmail f.key s) = none := by
  cases v with
  | str s =>
    by_cases hs : s = ""
    · simp [validateField, hs] at h
    · exact ⟨s, rfl, hs, by simpa [validateField, hs] using h⟩
  | _ => simp [validateField] at h

theorem validate_field_of_none (isEmail : String → Bool) (schema : List FieldSchema)
    (body : Obj) (h : validate isEmail schema body = none) (f : FieldSchema)
    (hf : f ∈ schema) : validateField isEmail f (getProp body f.key) = none := by
  unfold validate at h
  cases hfs : schema.findSome? (fun f => validateField isEmail f (getProp body f.key)) with
  | some msg => simp [hfs] at h
  | none => exact (List.findSome?_eq_none_iff.mp hfs) f hf

theorem validate_ne_none_of_field (isEmail : String → Bool) (schema : List FieldSchema)
    (body : Obj) (f : FieldSchema) (hf : f ∈ schema)
    (hv : validateField isEmail f (getProp body f.key) ≠ none) :
    validate isEmail schema body ≠ none :=
  fun h => hv (validate_field_of_none isEmail schema body h f hf)

theorem validate_register (isEmail : String → Bool) (body : Obj)
    (h : validate isEmail registerSchema body = none) :
    ∃ n e p, getProp body "name" = .str n ∧ n ≠ "" ∧
      getProp body "email" = .str e ∧ e ≠ "" ∧ isEmail e = true ∧
      getProp body "password" = .str p ∧ p ≠ "" ∧ 6 ≤ jsLength p := by
  obtain ⟨n, hn, hn0, -⟩ := validateField_eq_none _ _ _
    (validate_field_of_none isEmail _ body h ⟨"name", []⟩ (by simp [registerSchema]))
  obtain ⟨e, he, he0, hre⟩ := validateField_eq_none _ _ _
    (validate_field_of_none isEmail _ body h ⟨"email", [.email]⟩ (by simp [registerSchema]))
  obtain ⟨p, hp, hp0, hrp⟩ := validateField_eq_none _ _ _
    (validate_field_of_none isEmail _ body h ⟨"password", [.min 6]⟩ (by simp [registerSchema]))
  refine ⟨n, e, p, hn, hn0, he, he0, ?_, hp, hp0, ?_⟩
  · by_contra hc
    simp [checkRule, hc] at hre
  · by_contra hc
    simp [checkRule, hc] at hrp

theorem validate_login (isEmail : String → Bool) (body : Obj)
    (h : validate isEmail loginSchema body = none) :
    ∃ e p, getProp body "email" = .str e ∧ e ≠ "" ∧ isEmail e = true ∧
      getProp body "password" = .str p ∧ p ≠ "" := by
  obtain ⟨e, he, he0, hre⟩ := validateField_eq_none _ _ _
    (validate_field_of_none isEmail _ body h ⟨"email", [.email]⟩ (by simp [loginSchema]))
  obtain ⟨p, hp, hp0, -⟩ := validateField_eq_none _ _ _
    (validate_field_of_none isEmail _ body h ⟨"password", []⟩ (by simp [loginSchema]))
  refine ⟨e, p, he, he0, ?_, hp, hp0⟩
  by_contra hc
  simp [checkRule, hc] at hre

theorem validate_contact (isEmail : String → Bool) (body : Obj)
    (h : validate isEmail contactSchema body = none) :
    ∃ n e sub msg, getProp body "name" = .str n ∧ n ≠ "" ∧
      getProp body "email" = .str e ∧ e ≠ "" ∧ isEmail e = true ∧
      getProp body "subject" = .str sub ∧ sub ≠ "" ∧
      getProp body "message" = .str msg ∧ msg ≠ "" := by
  obtain ⟨n, hn, hn0, -⟩ := validateField_eq_none _ _ _
    (validate_field_of_none isEmail _ body h ⟨"name", []⟩ (by simp [contactSchema]))
  obtain ⟨e, he, he0, hre⟩ := validateField_eq_none _ _ _
    (validate_field_of_none isEmail _ body h ⟨"email", [.email]⟩ (by simp [contactSchema]))
  obtain ⟨sub, hsub, hsub0, -⟩ := validateField_eq_none _ _ _
    (validate_field_of_none isEmail _ body h ⟨"subject", []⟩ (by simp [contactSchema]))
  obtain ⟨msg, hmsg, hmsg0, -⟩ := validateField_eq_none _ _ _
    (validate_field_of_none isEmail _ body h ⟨"message", []⟩ (by simp [contactSchema]))
  refine ⟨n, e, sub, msg, hn, hn0, he, he0, ?_, hsub, hsub0, hmsg, hmsg0⟩
  by_contra hc
  simp [checkRule, hc] at hre

/-- A handler that stops at validation: the response and the untouched state. -/
theorem adminRegister_invalid {σ : Type} (env : Env) (pool : Pool σ) (body : Obj) (s : σ)
    (msg : String) (h : validate env.isEmail registerSchema body = some msg) :
    adminRegister env pool (.obj body) s = (⟨400, failure msg msg⟩, s) := by
  simp [adminRegister, validateBody, ownProps, h]

/-! ## Registration with missing fields -/

/-- C2 fails as stated: a request without a JSON body leaves `req.body`
undefined, so all three required fields are missing.  The schema is a
`Joi.object` that is not itself required, so validation reports no error;
the destructuring of `req.body` then throws inside the `try` block and the
answer is 500, not 400.  No query is run and the store is left as it was. -/
theorem register_absent_body_counterexample :
    validateBody sampleEnv.isEmail registerSchema .undefined = none ∧
      (adminRegister sampleEnv (mysql strictConfig 0) .undefined emptyDb).1 =
        ⟨500, [("success", .bool false), ("message", .str "Server error"),
               ("error", .str (destructureError "email" "undefined"))]⟩ ∧
      (adminRegister sampleEnv (mysql strictConfig 0) .undefined emptyDb).1.status ≠ 400 ∧
      (adminRegister sampleEnv (recording (mysql strictConfig 0)) .undefined
        (emptyDb, [])).2 = (emptyDb, []) := by
  decide

/-- C2, amended: when the body is an object that lacks one of `name`,
`email`, `password`, the handler of `POST /api/admin/register` answers 400
with `success: false` whatever the pool and the store state are, hands the
store state back untouched, runs no query (the record of a recording pool
gains nothing), and in particular leaves the `admin` table of the reference
store as it was. -/
theorem register_missing_field (env : Env) (body : Obj)
    (hmiss : getProp body "name" = .undefined ∨ getProp body "email" = .undefined ∨
      getProp body "password" = .undefined) :
    ∃ msg : String,
      (∀ (σ : Type) (pool : Pool σ) (s : σ),
        adminRegister env pool (.obj body) s = (⟨400, failure msg msg⟩, s)) ∧
      getProp (failure msg msg) "success" = .bool false ∧
      (∀ (σ : Type) (pool : Pool σ) (s : σ) (log : List (String × List JsVal)),
        (adminRegister env (recording pool) (.obj body) (s, log)).2 = (s, log)) ∧
      (∀ (cfg : MySqlConfig) (now : Int) (db : Db),
        (adminRegister env (mysql cfg now) (.obj body) db).2.admin = db.admin) := by
  have hne : validate env.isEmail registerSchema body ≠ none := by
    rcases hmiss with h | h | h
    · exact validate_ne_none_of_field _ _ body ⟨"name", []⟩ (by simp [registerSchema])
        (by simp [h, validateField])
    · exact validate_ne_none_of_field _ _ body ⟨"email", [.email]⟩ (by simp [registerSchema])
        (by simp [h, validateField])
    · exact validate_ne_none_of_field _ _ body ⟨"password", [.min 6]⟩
        (by simp [registerSchema]) (by simp [h, validateField])
  cases hmsg : validate env.isEmail registerSchema body with
  | none => exact absurd hmsg hne
  | some msg =>
    refine ⟨msg, fun σ pool s => adminRegister_invalid env pool body s msg hmsg, by
      simp [failure, getProp], ?_, ?_⟩
    · intro σ pool s log
      rw [adminRegister_invalid env (recording pool) body (s, log) msg hmsg]
    · intro cfg now db
      rw [adminRegister_invalid env (mysql cfg now) body db msg hmsg]

/-- An instance of the amended C2: an object body without `password`. -/
theorem register_missing_field_witness :
    (getProp [("name", .str "A"), ("email", .str "a@x.com")] "name" = .undefined ∨
      getProp [("name", .str "A"), ("email", .str "a@x.com")] "email" = .undefined ∨
      getProp [("name", .str "A"), ("email", .str "a@x.com")] "password" = .undefined) ∧
    ∃ msg : String,
      (∀ (σ : Type) (pool : Pool σ) (s : σ),
        adminRegister sampleEnv pool (.obj [("name", .str "A"), ("email", .str "a@x.com")])
          s = (⟨400, failure msg msg⟩, s)) ∧
      getProp (failure msg msg) "success" = .bool false ∧
      (∀ (σ : Type) (pool : Pool σ) (s : σ) (log : List (String × List JsVal)),
        (adminRegister sampleEnv (recording pool)
          (.obj [("name", .str "A"), ("email", .str "a@x.com")]) (s, log)).2 = (s, log)) ∧
      (∀ (cfg : MySqlConfig) (now : Int) (db : Db),
        (adminRegister sampleEnv (mysql cfg now)
          (.obj [("name", .str "A"), ("email", .str "a@x.com")]) db).2.admin = db.admin) :=
  ⟨by decide,
   register_missing_field sampleEnv [("name", .str "A"), ("email", .str "a@x.com")]
     (by decide)⟩

/-! ## Login -/

/-- C4: in any store state, a valid login body whose lookup returns no row
and a valid login body whose lookup returns a row whose hash does not match
the secret receive the same response: status 401 and the body with
`success: false` and `Invalid email or password` as message and as error. -/
theorem login_failures_identical {σ : Type} (env : Env) (pool : Pool σ) (s : σ)
    (b1 b2 r : Obj) (rs : List Obj)
    (hv1 : validate env.isEmail loginSchema b1 = none)
    (hv2 : validate env.isEmail loginSchema b2 = none)
    (h1 : (pool "SELECT * FROM admin WHERE email = ?" [getProp b1 "email"] s).1 = .ok [])
    (h2 : (pool "SELECT * FROM admin WHERE email = ?" [getProp b2 "email"] s).1 =
      .ok (r :: rs))
    (hc : env.compare (getProp b2 "password") (getProp r "password") = .ok false) :
    (adminLogin env pool (.obj b1) s).1 = (adminLogin env pool (.obj b2) s).1 ∧
      (adminLogin env pool (.obj b1) s).1 =
        ⟨401, [("success", .bool false), ("message", .str "Invalid email or password"),
               ("error", .str "Invalid email or password")]⟩ := by
  cases hq1 : pool "SELECT * FROM admin WHERE email = ?" [getProp b1 "email"] s with
  | mk r1 s1 =>
    cases hq2 : pool "SELECT * FROM admin WHERE email = ?" [getProp b2 "email"] s with
    | mk r2 s2 =>
      rw [hq1] at h1; rw [hq2] at h2
      simp only at h1 h2
      subst h1; subst h2
      simp [adminLogin, validateBody, ownProps, hv1, hv2, hq1, hq2, hc, failure]

/-- An instance of C4 on a store with one administrator. -/
theorem login_failures_identical_witness :
    validate sampleEnv.isEmail loginSchema unknownLogin = none ∧
    validate sampleEnv.isEmail loginSchema wrongSecretLogin = none ∧
    (adminLogin sampleEnv (mysql strictConfig 0) (.obj unknownLogin) oneAdminDb).1 =
        (adminLogin sampleEnv (mysql strictConfig 0) (.obj wrongSecretLogin) oneAdminDb).1 ∧
      (adminLogin sampleEnv (mysql strictConfig 0) (.obj unknownLogin) oneAdminDb).1 =
        ⟨401, [("success", .bool false), ("message", .str "Invalid email or password"),
               ("error", .str "Invalid email or password")]⟩ :=
  ⟨by decide, by decide,
   login_failures_identical sampleEnv (mysql strictConfig 0) oneAdminDb unknownLogin
     wrongSecretLogin oneAdminRow [] (by decide) (by decide) (by decide) (by decide)
     (by decide)⟩

/-- C5: when the lookup returns a first row `r` and the secret matches the
hash of `r`, the response is 200 with `success: true` and an `admin` object
made of exactly `id`, `name` and `email` of `r`; it is built from these three
columns only, so it holds no `password` entry and is the same whatever the
secret and the stored hash are. -/
theorem login_success {σ : Type} (env : Env) (pool : Pool σ) (s : σ)
    (body r : Obj) (rs : List Obj)
    (hv : validate env.isEmail loginSchema body = none)
    (hq : (pool "SELECT * FROM admin WHERE email = ?" [getProp body "email"] s).1 =
      .ok (r :: rs))
    (hc : env.compare (getProp body "password") (getProp r "password") = .ok true) :
    (adminLogin env pool (.obj body) s).1 =
        ⟨200, [("success", .bool true), ("message", .str "Login successful"),
               ("admin", .obj [("id", getProp r "id"), ("name", getProp r "name"),
                               ("email", getProp r "email")])]⟩ ∧
      keys (adminLogin env pool (.obj body) s).1.body = ["success", "message", "admin"] ∧
      (∀ v, getProp (adminLogin env pool (.obj body) s).1.body "admin" = .obj v →
        keys v = ["id", "name", "email"]) := by
  cases hq1 : pool "SELECT * FROM admin WHERE email = ?" [getProp body "email"] s with
  | mk r1 s1 =>
    rw [hq1] at hq
    simp only at hq
    subst hq
    have h : (adminLogin env pool (.obj body) s).1 =
        ⟨200, [("success", .bool true), ("message", .str "Login successful"),
               ("admin", .obj [("id", getProp r "id"), ("name", getProp r "name"),
                               ("email", getProp r "email")])]⟩ := by
      simp [adminLogin, validateBody, ownProps, hv, hq1, hc, success]
    refine ⟨h, ?_, ?_⟩
    · rw [h]; rfl
    · intro v hvv
      rw [h] at hvv
      simp only [getProp] at hvv
      simp at hvv
      rw [← hvv]; rfl

/-- An instance of C5 on a store with one administrator. -/
theorem login_success_witness :
    validate sampleEnv.isEmail loginSchema goodLogin = none ∧
    (adminLogin sampleEnv (mysql strictConfig 0) (.obj goodLogin) oneAdminDb).1 =
        ⟨200, [("success", .bool true), ("message", .str "Login successful"),
               ("admin", .obj [("id", .num 1), ("name", .str "A"),
                               ("email", .str "a@x.com")])]⟩ :=
  ⟨by decide,
   (login_success sampleEnv (mysql strictConfig 0) oneAdminDb goodLogin oneAdminRow []
     (by decide) (by decide) (by decide)).1⟩

/-! ## Failures of the collaborators -/

/-- C8: on each of the four routes, for every request body that passes validation,
when a step the handler reaches (a query, the hash or the comparison) throws
an error with message `m`, the response has status 500, `success: false`,
the message `Server error`, and `m` as its `error` entry. -/
theorem step_failure_is_500 {σ : Type} (env : Env) (pool : Pool σ) (route : Route)
    (reqBody : JsVal) (s : σ) (m : String)
    (hv : passesValidation env route reqBody)
    (hf : StepFails env pool m route reqBody s) :
    (handle env pool route reqBody s).1 =
        ⟨500, [("success", .bool false), ("message", .str "Server error"),
               ("error", .str m)]⟩ := by
  cases route with
  | register =>
    cases reqBody with
    | obj body =>
      simp only [passesValidation] at hv
      simp only [StepFails] at hf
      cases hq : pool "SELECT id FROM admin WHERE email = ?" [getProp body "email"] s with
      | mk r1 s1 =>
        rw [hq] at hf
        simp only at hf
        rcases hf with hf | ⟨hfound, hf⟩
        · subst hf
          simp [handle, adminRegister, ownProps, hv, hq, serverError, failure]
        · subst hfound
          rcases hf with hf | ⟨h, hh, hf⟩
          · simp [handle, adminRegister, ownProps, hv, hq, hf, serverError, failure]
          · cases hq2 : pool (insertStatement "admin" (registerData body h)).1
              (insertStatement "admin" (registerData body h)).2 s1 with
            | mk r2 s2 =>
              rw [hq2] at hf
              simp only at hf
              subst hf
              simp [handle, adminRegister, ownProps, hv, hq, hh, hq2, serverError, failure]
    | _ => simp [StepFails] at hf
  | login =>
    cases reqBody with
    | obj body =>
      simp only [passesValidation] at hv
      simp only [StepFails] at hf
      cases hq : pool "SELECT * FROM admin WHERE email = ?" [getProp body "email"] s with
      | mk r1 s1 =>
        rw [hq] at hf
        simp only at hf
        rcases hf with hf | ⟨r, rs, hrows, hf⟩
        · subst hf
          simp [handle, adminLogin, ownProps, hv, hq, serverError, failure]
        · subst hrows
          simp [handle, adminLogin, ownProps, hv, hq, hf, serverError, failure]
    | _ => simp [StepFails] at hf
  | contactCreate =>
    cases reqBody with
    | obj body =>
      simp only [passesValidation] at hv
      simp only [StepFails] at hf
      cases hq : pool (insertStatement "contact" (contactData body)).1
          (insertStatement "contact" (contactData body)).2 s with
      | mk r1 s1 =>
        rw [hq] at hf
        simp only at hf
        subst hf
        simp [handle, contactCreate, ownProps, hv, hq, serverError, failure]
    | _ => simp [StepFails] at hf
  | contactList =>
    simp only [StepFails] at hf
    cases hq : pool "SELECT * FROM contact" [] s with
    | mk r1 s1 =>
      rw [hq] at hf
      simp only at hf
      subst hf
      simp [handle, contactList, hq, serverError, failure]

/-- An instance of C8: the insert of a registration is refused by the store. -/
theorem step_failure_is_500_witness :
    passesValidation sampleEnv .register (.obj longNameRegistration) ∧
    (handle sampleEnv (mysql strictConfig 0) .register (.obj longNameRegistration) emptyDb).1 =
        ⟨500, [("success", .bool false), ("message", .str "Server error"),
               ("error", .str ("Data too long for column " ++ sq ++ "name" ++ sq ++
                 " at row 1"))]⟩ :=
  ⟨by decide,
   step_failure_is_500 sampleEnv (mysql strictConfig 0) .register
     (.obj longNameRegistration) emptyDb ("Data too long for column " ++ sq ++ "name" ++ sq ++ " at row 1") (by decide)
     (Or.inr ⟨by decide, Or.inr ⟨"$2b$10$secret1", by decide, by decide⟩⟩)⟩

/-! ## The statements the handlers send for valid requests -/

theorem WF_admin_literal (a b c : JsVal) :
    Obj.WF [("name", a), ("email", b), ("password", c)] := by
  have h : (["name", "email", "password"] : List String).Nodup ∧
      (["name", "email", "password"] : List String).Pairwise keyBefore := by decide
  exact h

theorem WF_contact_literal (a b c d : JsVal) :
    Obj.WF [("name", a), ("email", b), ("subject", c), ("message", d)] := by
  have h : (["name", "email", "subject", "message"] : List String).Nodup ∧
      (["name", "email", "subject", "message"] : List String).Pairwise keyBefore := by decide
  exact h

theorem registerData_eq (body : Obj) (n e h : String)
    (hn : getProp body "name" = .str n) (he : getProp body "email" = .str e)
    (hn0 : n ≠ "") (he0 : e ≠ "") (hh0 : h ≠ "") :
    registerData body h = [("name", .str n), ("email", .str e), ("password", .str h)] := by
  unfold registerData
  rw [hn, he, cleanObject_eq_filter _ (WF_admin_literal _ _ _)]
  simp [strictNe, hn0, he0, hh0]

theorem contactData_eq (body : Obj) (n e sub msg : String)
    (hn : getProp body "name" = .str n) (he : getProp body "email" = .str e)
    (hsub : getProp body "subject" = .str sub) (hmsg : getProp body "message" = .str msg)
    (hn0 : n ≠ "") (he0 : e ≠ "") (hsub0 : sub ≠ "") (hmsg0 : msg ≠ "") :
    contactData body =
      [("name", .str n), ("email", .str e), ("subject", .str sub), ("message", .str msg)] := by
  unfold contactData
  rw [hn, he, hsub, hmsg, cleanObject_eq_filter _ (WF_contact_literal _ _ _ _)]
  simp [strictNe, hn0, he0, hsub0, hmsg0]

theorem insertStatement_admin (n e h : JsVal) :
    insertStatement "admin" [("name", n), ("email", e), ("password", h)] =
      ("INSERT INTO admin (name, email, password) VALUES (?, ?, ?)", [n, e, h]) := by
  have hq : "INSERT INTO " ++ "admin" ++ " (" ++ ", ".intercalate ["name", "email", "password"] ++
      ") VALUES (" ++ ", ".intercalate ["?", "?", "?"] ++ ")" =
      "INSERT INTO admin (name, email, password) VALUES (?, ?, ?)" := by decide
  simp only [insertStatement, keys, List.map, getProp]
  rw [hq]
  simp

theorem insertStatement_contact (n e sub msg : JsVal) :
    insertStatement "contact" [("name", n), ("email", e), ("subject", sub), ("message", msg)] =
      ("INSERT INTO contact (name, email, subject, message) VALUES (?, ?, ?, ?)",
        [n, e, sub, msg]) := by
  have hq : "INSERT INTO " ++ "contact" ++ " (" ++
      ", ".intercalate ["name", "email", "subject", "message"] ++
      ") VALUES (" ++ ", ".intercalate ["?", "?", "?", "?"] ++ ")" =
      "INSERT INTO contact (name, email, subject, message) VALUES (?, ?, ?, ?)" := by decide
  simp only [insertStatement, keys, List.map, getProp]
  rw [hq]
  simp

/-! ## The reference store on the statements of the handlers -/

theorem parseInsert_admin :
    parseInsert "INSERT INTO admin (name, email, password) VALUES (?, ?, ?)" =
      some ⟨"admin", ["name", "email", "password"], 3⟩ := by decide

theorem parseInsert_contact :
    parseInsert "INSERT INTO contact (name, email, subject, message) VALUES (?, ?, ?, ?)" =
      some ⟨"contact", ["name", "email", "subject", "message"], 4⟩ := by decide

theorem sameEmail_self (cfg : MySqlConfig) (e : String) : sameEmail cfg e e = true := by
  simp [sameEmail]

theorem mysql_select_id (cfg : MySqlConfig) (now : Int) (e : String) (s : Db) :
    mysql cfg now "SELECT id FROM admin WHERE email = ?" [.str e] s =
      (.ok ((adminByEmail cfg s e).map (fun r => [("id", .num r.id)])), s) := by
  simp [mysql]

theorem insertAdmin_ok (cfg : MySqlConfig) (now : Int) (n e h : String) (s : Db)
    (hn : n.length ≤ 100) (he : e.length ≤ 100) (hh : h.length ≤ 255)
    (hfree : adminByEmail cfg s e = []) :
    insertAdmin cfg now ["name", "email", "password"] 3 [.str n, .str e, .str h] s =
      .ok ⟨s.adminNextId, n, e, h, now, none⟩ := by
  have hany : (s.admin.any (fun r => sameEmail cfg r.email e)) = false := by
    unfold adminByEmail at hfree
    rw [List.filter_eq_nil_iff] at hfree
    rw [List.any_eq_false]
    exact hfree
  have hc : checkColumns ["name", "email", "password"] ["name", "email", "password"] 3
      [.str n, .str e, .str h] = .ok () := by
    unfold checkColumns
    rw [if_neg (by simp), if_neg (by simp)]
    have hf : (["name", "email", "password"] : List String).find?
        (fun c => !(["name", "email", "password"] : List String).contains c) = none := by
      decide
    rw [hf]
    exact if_pos (by decide)
  simp [insertAdmin, hc, storeText, columnValue, TextType.fits, hn, he, hh, hany,
    List.lookup, bind, Except.bind]

theorem mysql_insert_admin (cfg : MySqlConfig) (now : Int) (n e h : String) (s : Db)
    (hn : n.length ≤ 100) (he : e.length ≤ 100) (hh : h.length ≤ 255)
    (hfree : adminByEmail cfg s e = []) :
    mysql cfg now "INSERT INTO admin (name, email, password) VALUES (?, ?, ?)"
        [.str n, .str e, .str h] s =
      (.ok [], { s with admin := s.admin ++ [⟨s.adminNextId, n, e, h, now, none⟩],
                        adminNextId := s.adminNextId + 1 }) := by
  unfold mysql
  rw [if_neg (by decide), if_neg (by decide), if_neg (by decide), parseInsert_admin]
  simp only [insertAdmin_ok cfg now n e h s hn he hh hfree]
  rfl

theorem insertContact_ok (cfg : MySqlConfig) (now : Int) (n e sub msg : String) (s : Db)
    (hn : n.length ≤ 100) (he : e.length ≤ 100) (hsub : sub.length ≤ 255)
    (hmsg : msg.utf8ByteSize ≤ 65535) :
    insertContact cfg now ["name", "email", "subject", "message"] 4
        [.str n, .str e, .str sub, .str msg] s =
      .ok ⟨s.contactNextId, n, e, sub, msg, now, none⟩ := by
  have hc : checkColumns ["name", "email", "subject", "message"]
      ["name", "email", "subject", "message"] 4
      [.str n, .str e, .str sub, .str msg] = .ok () := by
    unfold checkColumns
    rw [if_neg (by simp), if_neg (by simp)]
    have hf : (["name", "email", "subject", "message"] : List String).find?
        (fun c => !(["name", "email", "subject", "message"] : List String).contains c) =
        none := by
      decide
    rw [hf]
    exact if_pos (by decide)
  simp [insertContact, hc, storeText, columnValue, TextType.fits, hn, he, hsub, hmsg,
    List.lookup, bind, Except.bind]

theorem mysql_insert_contact (cfg : MySqlConfig) (now : Int) (n e sub msg : String) (s : Db)
    (hn : n.length ≤ 100) (he : e.length ≤ 100) (hsub : sub.length ≤ 255)
    (hmsg : msg.utf8ByteSize ≤ 65535) :
    mysql cfg now "INSERT INTO contact (name, email, subject, message) VALUES (?, ?, ?, ?)"
        [.str n, .str e, .str sub, .str msg] s =
      (.ok [], { s with contact := s.contact ++ [⟨s.contactNextId, n, e, sub, msg, now, none⟩],
                        contactNextId := s.contactNextId + 1 }) := by
  unfold mysql
  rw [if_neg (by decide), if_neg (by decide), if_neg (by decide), parseInsert_contact]
  simp only [insertContact_ok cfg now n e sub msg s hn he hsub hmsg]
  rfl

theorem mysql_select_contacts (cfg : MySqlConfig) (now : Int) (s : Db) :
    mysql cfg now "SELECT * FROM contact" [] s = (.ok (s.contact.map contactRowObj), s) := by
  simp [mysql]

/-! ## Registration on an arbitrary pool -/

theorem adminRegister_created {σ : Type} (env : Env) (pool : Pool σ) (body : Obj)
    (s s1 s2 : σ) (n e p h : String) (rows : List Obj)
    (hv : validate env.isEmail registerSchema body = none)
    (hn : getProp body "name" = .str n) (he : getProp body "email" = .str e)
    (hp : getProp body "password" = .str p)
    (hq : pool "SELECT id FROM admin WHERE email = ?" [.str e] s = (.ok [], s1))
    (hh : env.hash (.str p) 10 = .ok h) (hh0 : h ≠ "")
    (hi : pool "INSERT INTO admin (name, email, password) VALUES (?, ?, ?)"
      [.str n, .str e, .str h] s1 = (.ok rows, s2)) :
    adminRegister env pool (.obj body) s =
      (⟨201, [("success", .bool true), ("message", .str "Admin registered successfully")]⟩,
        s2) := by
  obtain ⟨n1, e1, p1, hn1, hn0, he1, he0, -, -, -, -⟩ := validate_register _ body hv
  have hnn : n1 = n := by rw [hn] at hn1; injection hn1 with h1; exact h1.symm
  have hee : e1 = e := by rw [he] at he1; injection he1 with h1; exact h1.symm
  subst hnn; subst hee
  have hd := registerData_eq body n1 e1 h hn he hn0 he0 hh0
  simp [adminRegister, validateBody, ownProps, hv, he, hp, hq, hh, hd, insertStatement_admin, hi, success]

theorem adminRegister_conflict {σ : Type} (env : Env) (pool : Pool σ) (body : Obj)
    (s s1 : σ) (e : String) (r : Obj) (rs : List Obj)
    (hv : validate env.isEmail registerSchema body = none)
    (he : getProp body "email" = .str e)
    (hq : pool "SELECT id FROM admin WHERE email = ?" [.str e] s = (.ok (r :: rs), s1)) :
    adminRegister env pool (.obj body) s =
      (⟨409, [("success", .bool false), ("message", .str "Admin already exists"),
              ("error", .str "Admin already exists")]⟩, s1) := by
  simp [adminRegister, validateBody, ownProps, hv, he, hq, failure]

theorem recording_apply {σ : Type} (pool : Pool σ) (sql : String) (values : List JsVal)
    (s s1 : σ) (log : List (String × List JsVal)) (res : Except String (List Obj))
    (h : pool sql values s = (res, s1)) :
    recording pool sql values (s, log) = (res, (s1, log ++ [(sql, values)])) := by
  simp [recording, h]

theorem adminByEmail_after_insert (cfg : MySqlConfig) (s : Db) (e : String) (row : AdminRow)
    (next : Nat) (hrow : row.email = e) (hfree : adminByEmail cfg s e = []) :
    adminByEmail cfg { s with admin := s.admin ++ [row], adminNextId := next } e = [row] := by
  unfold adminByEmail at hfree ⊢
  simp only [List.filter_append, hfree, List.nil_append]
  simp [List.filter, hrow, sameEmail_self]

/-! ## Registration against the reference store -/

/-- C6 fails as stated: a body the schema accepts, with a name of 101
characters, on a store without that e-mail.  A strict server refuses the
insert (500, no row); a server without strict mode stores the name cut to
100 characters, which is not the submitted name. -/
theorem register_long_name_counterexample :
    validate sampleEnv.isEmail registerSchema longNameRegistration = none ∧
      adminByEmail strictConfig emptyDb "a@x.com" = [] ∧
      (adminRegister sampleEnv (mysql strictConfig 0) (.obj longNameRegistration) emptyDb).1.status
        = 500 ∧
      (adminRegister sampleEnv (mysql strictConfig 0) (.obj longNameRegistration) emptyDb).2.admin
        = [] ∧
      (adminRegister sampleEnv (mysql looseConfig 0) (.obj longNameRegistration) emptyDb).2.admin
        = [⟨1, letters 100, "a@x.com", "$2b$10$secret1", 0, none⟩] ∧
      letters 100 ≠ letters 101 := by
  decide

/-- C6, amended: for a schema-valid body (name `n`, e-mail `e`, secret `p`)
with `n` and `e` of at most 100 characters, on a store holding no admin with
e-mail `e`, when `bcrypt.hash(p, 10)` yields a non-empty digest `h` of at
most 255 characters, the handler runs the lookup and then one insert whose
bound values are `n`, `e` and `h` (not `p`), the table gains exactly the row
with name `n`, e-mail `e` and password `h`, and the response is 201 with
only `success` and `message`. -/
theorem register_inserts_hashed (env : Env) (cfg : MySqlConfig) (now : Int) (body : Obj)
    (s : Db) (n e p h : String)
    (hv : validate env.isEmail registerSchema body = none)
    (hn : getProp body "name" = .str n) (he : getProp body "email" = .str e)
    (hp : getProp body "password" = .str p)
    (hfree : adminByEmail cfg s e = [])
    (hh : env.hash (.str p) 10 = .ok h) (hh0 : h ≠ "") (hhl : h.length ≤ 255)
    (hnl : n.length ≤ 100) (hel : e.length ≤ 100) :
    adminRegister env (mysql cfg now) (.obj body) s =
        (⟨201, [("success", .bool true),
                ("message", .str "Admin registered successfully")]⟩,
          { s with admin := s.admin ++ [⟨s.adminNextId, n, e, h, now, none⟩],
                   adminNextId := s.adminNextId + 1 }) ∧
      (adminRegister env (recording (mysql cfg now)) (.obj body) (s, [])).2.2 =
        [("SELECT id FROM admin WHERE email = ?", [.str e]),
         ("INSERT INTO admin (name, email, password) VALUES (?, ?, ?)",
           [.str n, .str e, .str h])] := by
  have hq : mysql cfg now "SELECT id FROM admin WHERE email = ?" [.str e] s = (.ok [], s) := by
    rw [mysql_select_id, hfree]; rfl
  have hi := mysql_insert_admin cfg now n e h s hnl hel hhl hfree
  refine ⟨adminRegister_created env _ body s s _ n e p h [] hv hn he hp hq hh hh0 hi, ?_⟩
  rw [adminRegister_created env (recording (mysql cfg now)) body (s, []) _ _ n e p h []
    hv hn he hp (recording_apply _ _ _ s s [] _ hq) hh hh0
    (recording_apply _ _ _ s _ _ _ hi)]
  rfl

/-- An instance of the amended C6 on the empty store. -/
theorem register_inserts_hashed_witness :
    validate sampleEnv.isEmail registerSchema sampleRegistration = none ∧
    adminRegister sampleEnv (mysql strictConfig 7) (.obj sampleRegistration) emptyDb =
        (⟨201, [("success", .bool true),
                ("message", .str "Admin registered successfully")]⟩,
          ⟨[⟨1, "A", "a@x.com", "$2b$10$secret1", 7, none⟩], [], 2, 1⟩) :=
  ⟨by decide,
   (register_inserts_hashed sampleEnv strictConfig 7 sampleRegistration emptyDb "A" "a@x.com"
     "secret1" "$2b$10$secret1" (by decide) (by decide) (by decide) (by decide) (by decide)
     (by decide) (by decide) (by decide) (by decide) (by decide)).1⟩

/-- C3 fails as stated: a body the schema accepts, with an e-mail of 125
characters, on the empty store.  On a strict server both registrations end
in 500; without strict mode the first stores the e-mail cut to 100
characters and answers 201, the second lookup misses that row and its insert
hits the unique index, so it answers 500 and not 409.  A name of 101
characters on a strict server gives 500 for the first registration too. -/
theorem register_twice_counterexample :
    validate sampleEnv.isEmail registerSchema longEmailRegistration = none ∧
      adminByEmail strictConfig emptyDb longEmail = [] ∧
      (adminRegister sampleEnv (mysql strictConfig 0) (.obj longEmailRegistration) emptyDb).1.status
        = 500 ∧
      (adminRegister sampleEnv (mysql strictConfig 1) (.obj longEmailRegistration)
        (adminRegister sampleEnv (mysql strictConfig 0) (.obj longEmailRegistration)
          emptyDb).2).1.status = 500 ∧
      (adminRegister sampleEnv (mysql looseConfig 0) (.obj longEmailRegistration) emptyDb).1.status
        = 201 ∧
      (adminRegister sampleEnv (mysql looseConfig 1) (.obj longEmailRegistration)
        (adminRegister sampleEnv (mysql looseConfig 0) (.obj longEmailRegistration)
          emptyDb).2).1.status = 500 ∧
      (adminRegister sampleEnv (mysql strictConfig 0) (.obj longNameRegistration) emptyDb).1.status
        = 500 := by
  decide

/-- C3, amended: on a store holding no admin with e-mail `e`, for a
schema-valid body with e-mail `e` whose name and e-mail have at most 100
characters, when `bcrypt.hash` yields a non-empty digest of at most 255
characters, two registrations in sequence answer 201 and then 409 with
`success: false` and message `Admin already exists`; the second one runs the
lookup only, leaves the store as the first one left it, and the table then
holds exactly one row with e-mail `e`. -/
theorem register_twice (env : Env) (cfg : MySqlConfig) (now1 now2 : Int) (body : Obj)
    (s : Db) (n e p h : String)
    (hv : validate env.isEmail registerSchema body = none)
    (hn : getProp body "name" = .str n) (he : getProp body "email" = .str e)
    (hp : getProp body "password" = .str p)
    (hfree : adminByEmail cfg s e = [])
    (hh : env.hash (.str p) 10 = .ok h) (hh0 : h ≠ "") (hhl : h.length ≤ 255)
    (hnl : n.length ≤ 100) (hel : e.length ≤ 100) :
    (adminRegister env (mysql cfg now1) (.obj body) s).1.status = 201 ∧
      (adminRegister env (mysql cfg now2) (.obj body) (adminRegister env (mysql cfg now1) (.obj body) s).2).1 =
        ⟨409, [("success", .bool false), ("message", .str "Admin already exists"),
               ("error", .str "Admin already exists")]⟩ ∧
      (adminRegister env (mysql cfg now2) (.obj body) (adminRegister env (mysql cfg now1) (.obj body) s).2).2 =
        (adminRegister env (mysql cfg now1) (.obj body) s).2 ∧
      (adminRegister env (recording (mysql cfg now2)) (.obj body)
          ((adminRegister env (mysql cfg now1) (.obj body) s).2, [])).2.2 =
        [("SELECT id FROM admin WHERE email = ?", [.str e])] ∧
      (adminByEmail cfg
        (adminRegister env (mysql cfg now2) (.obj body)
          (adminRegister env (mysql cfg now1) (.obj body) s).2).2 e).length = 1 := by
  have hq : mysql cfg now1 "SELECT id FROM admin WHERE email = ?" [.str e] s = (.ok [], s) := by
    rw [mysql_select_id, hfree]; rfl
  have hi := mysql_insert_admin cfg now1 n e h s hnl hel hhl hfree
  have h1 := adminRegister_created env _ body s s _ n e p h [] hv hn he hp hq hh hh0 hi
  have hby := adminByEmail_after_insert cfg s e ⟨s.adminNextId, n, e, h, now1, none⟩
    (s.adminNextId + 1) rfl hfree
  have hq2 : mysql cfg now2 "SELECT id FROM admin WHERE email = ?" [.str e]
      { s with admin := s.admin ++ [⟨s.adminNextId, n, e, h, now1, none⟩],
               adminNextId := s.adminNextId + 1 } =
      (.ok ([("id", .num s.adminNextId)] :: []),
        { s with admin := s.admin ++ [⟨s.adminNextId, n, e, h, now1, none⟩],
                 adminNextId := s.adminNextId + 1 }) := by
    rw [mysql_select_id, hby]; rfl
  have h2 := adminRegister_conflict env _ body _ _ e _ _ hv he hq2
  have h3 := adminRegister_conflict env _ body _ _ e _ _ hv he
    (recording_apply _ _ _ _ _ [] _ hq2)
  rw [h1]
  dsimp only
  rw [h2, h3]
  dsimp only
  rw [hby]
  simp

/-- An instance of the amended C3 on the empty store. -/
theorem register_twice_witness :
    validate sampleEnv.isEmail registerSchema sampleRegistration = none ∧
    adminByEmail strictConfig emptyDb "a@x.com" = [] ∧
    (adminRegister sampleEnv (mysql strictConfig 0) (.obj sampleRegistration) emptyDb).1.status = 201 ∧
    (adminRegister sampleEnv (mysql strictConfig 1) (.obj sampleRegistration)
      (adminRegister sampleEnv (mysql strictConfig 0) (.obj sampleRegistration) emptyDb).2).1.status =
      409 :=
  ⟨by decide, by decide,
   (register_twice sampleEnv strictConfig 0 1 sampleRegistration emptyDb "A" "a@x.com"
     "secret1" "$2b$10$secret1" (by decide) (by decide) (by decide) (by decide) (by decide)
     (by decide) (by decide) (by decide) (by decide) (by decide)).1,
   by decide⟩

/-! ## Contact submission and listing -/

theorem contact_statement (env : Env) (body : Obj) (n e sub msg : String)
    (hv : validate env.isEmail contactSchema body = none)
    (hn : getProp body "name" = .str n) (he : getProp body "email" = .str e)
    (hsub : getProp body "subject" = .str sub) (hmsg : getProp body "message" = .str msg) :
    contactData body =
        [("name", .str n), ("email", .str e), ("subject", .str sub), ("message", .str msg)] ∧
      insertStatement "contact" (contactData body) =
        ("INSERT INTO contact (name, email, subject, message) VALUES (?, ?, ?, ?)",
          [.str n, .str e, .str sub, .str msg]) := by
  obtain ⟨n1, e1, sub1, msg1, hn1, hn0, he1, he0, -, hsub1, hsub0, hmsg1, hmsg0⟩ :=
    validate_contact _ body hv
  have e1n : n1 = n := by rw [hn] at hn1; injection hn1 with h1; exact h1.symm
  have e1e : e1 = e := by rw [he] at he1; injection he1 with h1; exact h1.symm
  have e1s : sub1 = sub := by rw [hsub] at hsub1; injection hsub1 with h1; exact h1.symm
  have e1m : msg1 = msg := by rw [hmsg] at hmsg1; injection hmsg1 with h1; exact h1.symm
  subst e1n; subst e1e; subst e1s; subst e1m
  have hd := contactData_eq body n1 e1 sub1 msg1 hn he hsub hmsg hn0 he0 hsub0 hmsg0
  exact ⟨hd, by rw [hd, insertStatement_contact]⟩

theorem contactCreate_eq {σ : Type} (env : Env) (pool : Pool σ) (body : Obj) (s : σ)
    (n e sub msg : String)
    (hv : validate env.isEmail contactSchema body = none)
    (hn : getProp body "name" = .str n) (he : getProp body "email" = .str e)
    (hsub : getProp body "subject" = .str sub) (hmsg : getProp body "message" = .str msg) :
    contactCreate env pool (.obj body) s =
      match pool "INSERT INTO contact (name, email, subject, message) VALUES (?, ?, ?, ?)"
          [.str n, .str e, .str sub, .str msg] s with
      | (.error m, s1) => (serverError m, s1)
      | (.ok _, s1) => (⟨201, success "Contact submitted successfully"⟩, s1) := by
  have hst := (contact_statement env body n e sub msg hv hn he hsub hmsg).2
  simp only [contactCreate, validateBody, ownProps, hv, hst]

/-- C7 fails as stated: a contact body the schema accepts, with a name of
101 characters.  A strict server refuses the insert, so the submission
answers 500 and the listing does not hold the message; without strict mode
the listing holds a row whose name is cut to 100 characters. -/
theorem contact_long_name_counterexample :
    validate sampleEnv.isEmail contactSchema longNameContact = none ∧
      (contactCreate sampleEnv (mysql strictConfig 0) (.obj longNameContact) emptyDb).1.status = 500 ∧
      (contactList (mysql strictConfig 1)
        (contactCreate sampleEnv (mysql strictConfig 0) (.obj longNameContact) emptyDb).2).1 =
        ⟨200, [("success", .bool true), ("message", .str "Contacts fetched successfully"),
               ("contacts", .arr [])]⟩ ∧
      (contactCreate sampleEnv (mysql looseConfig 0) (.obj longNameContact) emptyDb).1.status = 201 ∧
      (contactList (mysql looseConfig 1)
        (contactCreate sampleEnv (mysql looseConfig 0) (.obj longNameContact) emptyDb).2).1 =
        ⟨200, [("success", .bool true), ("message", .str "Contacts fetched successfully"),
               ("contacts", .arr [.obj (contactRowObj
                 ⟨1, letters 100, "b@x.com", "Hi", "Hello", 0, none⟩)])]⟩ ∧
      letters 100 ≠ letters 101 := by
  decide

/-- C7, amended: for every store state and every schema-valid contact body
whose name and e-mail have at most 100 characters, whose subject has at most
255 characters and whose message takes at most 65535 bytes, the submission
answers 201, and a listing on the resulting store answers 200 with a
`contacts` array made of every row stored before, in order, followed by a
row whose name, e-mail, subject and message are the submitted values. -/
theorem contact_submit_then_list (env : Env) (cfg : MySqlConfig) (now1 now2 : Int)
    (body : Obj) (s : Db) (n e sub msg : String)
    (hv : validate env.isEmail contactSchema body = none)
    (hn : getProp body "name" = .str n) (he : getProp body "email" = .str e)
    (hsub : getProp body "subject" = .str sub) (hmsg : getProp body "message" = .str msg)
    (hnl : n.length ≤ 100) (hel : e.length ≤ 100) (hsl : sub.length ≤ 255)
    (hml : msg.utf8ByteSize ≤ 65535) :
    (contactCreate env (mysql cfg now1) (.obj body) s).1 =
        ⟨201, [("success", .bool true), ("message", .str "Contact submitted successfully")]⟩ ∧
      (contactList (mysql cfg now2) (contactCreate env (mysql cfg now1) (.obj body) s).2).1 =
        ⟨200, [("success", .bool true), ("message", .str "Contacts fetched successfully"),
               ("contacts", .arr ((s.contact.map contactRowObj ++
                 [([("id", .num s.contactNextId), ("name", .str n), ("email", .str e),
                    ("subject", .str sub), ("message", .str msg), ("createdAt", .date now1),
                    ("updatedAt", .null)] : Obj)]).map JsVal.obj))]⟩ := by
  have h1 : contactCreate env (mysql cfg now1) (.obj body) s =
      (⟨201, success "Contact submitted successfully"⟩,
        { s with contact := s.contact ++ [⟨s.contactNextId, n, e, sub, msg, now1, none⟩],
                 contactNextId := s.contactNextId + 1 }) := by
    rw [contactCreate_eq env _ body s n e sub msg hv hn he hsub hmsg,
      mysql_insert_contact cfg now1 n e sub msg s hnl hel hsl hml]
  rw [h1]
  refine ⟨rfl, ?_⟩
  simp only [contactList, mysql_select_contacts]
  simp [success, contactRowObj, timestampVal]

/-- An instance of the amended C7 on a store that holds one message. -/
theorem contact_submit_then_list_witness :
    validate sampleEnv.isEmail contactSchema sampleContact = none ∧
    (contactList (mysql strictConfig 9)
      (contactCreate sampleEnv (mysql strictConfig 8) (.obj sampleContact) oneContactDb).2).1 =
      ⟨200, [("success", .bool true), ("message", .str "Contacts fetched successfully"),
             ("contacts", .arr
               [.obj [("id", .num 1), ("name", .str "C"), ("email", .str "c@x.com"),
                      ("subject", .str "Old"), ("message", .str "Earlier message"),
                      ("createdAt", .date 0), ("updatedAt", .null)],
                .obj [("id", .num 2), ("name", .str "B"), ("email", .str "b@x.com"),
                      ("subject", .str "Hi"), ("message", .str "Hello"),
                      ("createdAt", .date 8), ("updatedAt", .null)]])]⟩ :=
  ⟨by decide,
   (contact_submit_then_list sampleEnv strictConfig 8 9 sampleContact oneContactDb "B"
     "b@x.com" "Hi" "Hello" (by decide) (by decide) (by decide) (by decide) (by decide)
     (by decide) (by decide) (by decide) (by decide)).2.trans (by decide)⟩

/-- C10 fails as stated: a contact body the schema accepts, with a subject
of 256 characters.  The statement names the four columns with the submitted
values, but a strict server inserts no row, and without strict mode the row
holds the subject cut to 255 characters. -/
theorem contact_long_subject_counterexample :
    validate sampleEnv.isEmail contactSchema longSubjectContact = none ∧
      (contactCreate sampleEnv (recording (mysql strictConfig 0)) (.obj longSubjectContact)
          (emptyDb, [])).2.2 =
        [("INSERT INTO contact (name, email, subject, message) VALUES (?, ?, ?, ?)",
          [.str "B", .str "b@x.com", .str (letters 256), .str "Hello"])] ∧
      (contactCreate sampleEnv (mysql strictConfig 0) (.obj longSubjectContact) emptyDb).2.contact
        = [] ∧
      (contactCreate sampleEnv (mysql looseConfig 0) (.obj longSubjectContact) emptyDb).2.contact
        = [⟨1, "B", "b@x.com", letters 255, "Hello", 0, none⟩] ∧
      letters 255 ≠ letters 256 := by
  decide

/-- C10, amended: for every body the contact schema accepts, `cleanObject`
removes no field, so the handler sends exactly one statement, the INSERT
naming the four columns `name`, `email`, `subject`, `message` bound to the
submitted values, whatever the pool is; and when the name and the e-mail
have at most 100 characters, the subject at most 255 and the message takes
at most 65535 bytes, the store gains exactly the row with the provided
fields. -/
theorem contact_insert_four_columns (env : Env) (body : Obj) (n e sub msg : String)
    (hv : validate env.isEmail contactSchema body = none)
    (hn : getProp body "name" = .str n) (he : getProp body "email" = .str e)
    (hsub : getProp body "subject" = .str sub) (hmsg : getProp body "message" = .str msg) :
    contactData body =
        [("name", .str n), ("email", .str e), ("subject", .str sub), ("message", .str msg)] ∧
      (∀ (σ : Type) (pool : Pool σ) (s : σ),
        (contactCreate env (recording pool) (.obj body) (s, [])).2.2 =
          [("INSERT INTO contact (name, email, subject, message) VALUES (?, ?, ?, ?)",
            [.str n, .str e, .str sub, .str msg])]) ∧
      (∀ (cfg : MySqlConfig) (now : Int) (s : Db),
        n.length ≤ 100 → e.length ≤ 100 → sub.length ≤ 255 → msg.utf8ByteSize ≤ 65535 →
        (contactCreate env (mysql cfg now) (.obj body) s).2.contact =
          s.contact ++ [⟨s.contactNextId, n, e, sub, msg, now, none⟩]) := by
  refine ⟨(contact_statement env body n e sub msg hv hn he hsub hmsg).1, ?_, ?_⟩
  · intro σ pool s
    rw [contactCreate_eq env _ body (s, []) n e sub msg hv hn he hsub hmsg]
    cases hq : pool "INSERT INTO contact (name, email, subject, message) VALUES (?, ?, ?, ?)"
        [.str n, .str e, .str sub, .str msg] s with
    | mk r s1 =>
      rw [recording_apply pool _ _ s s1 [] r hq]
      cases r <;> rfl
  · intro cfg now s hnl hel hsl hml
    rw [contactCreate_eq env _ body s n e sub msg hv hn he hsub hmsg,
      mysql_insert_contact cfg now n e sub msg s hnl hel hsl hml]

/-- An instance of the amended C10 on a store that holds one message. -/
theorem contact_insert_four_columns_witness :
    validate sampleEnv.isEmail contactSchema sampleContact = none ∧
    (contactCreate sampleEnv (mysql strictConfig 8) (.obj sampleContact) oneContactDb).2.contact =
      oneContactDb.contact ++ [⟨2, "B", "b@x.com", "Hi", "Hello", 8, none⟩] :=
  ⟨by decide,
   (contact_insert_four_columns sampleEnv sampleContact "B" "b@x.com" "Hi" "Hello"
     (by decide) (by decide) (by decide) (by decide) (by decide)).2.2 strictConfig 8
     oneContactDb (by decide) (by decide) (by decide) (by decide)⟩

end BackTest
